import Mathlib

/-!
Shallow embedding of the `totp` command-line tool (src/main.rs).

The repository's own code is the function `totp` in src/main.rs; it delegates
Base32 decoding to the external `base32` crate and the keyed hash to the
external `hmac`/`sha1` crates, none of which ship in this repository.  Those
two collaborators are therefore modelled from the spec (sections 4.1 and 4.2):
an RFC 4648 unpadded Base32 decoder and HMAC with SHA-1.

Machine integers are modelled as `Nat` with explicit reduction modulo `2^32`
(for `u32` arithmetic, the release-profile wrap-around semantics) and with
big-endian byte extraction for the `u64` counter serialization.  Rust panics
(division and remainder by zero panic in every build profile) are modelled by
a dedicated constructor of the result type.
-/

/-- Reduce to one byte. -/
def wByte (n : Nat) : Nat := n % 256

/-- 32-bit wrap-around, the release-profile semantics of Rust `u32`
arithmetic. -/
def w32 (n : Nat) : Nat := n % 4294967296

/-- ASCII per-character case folding: maps a-z to A-Z and leaves every other
code point unchanged.  This is the case-insensitive acceptance of the
spec-modelled Base32 decoder (spec section 4.1: the alphabet is accepted in
either case), applied per character inside `base32Decode`. -/
def asciiToUpper (c : Nat) : Nat :=
  if 97 ≤ c ∧ c ≤ 122 then c - 32 else c

/-- The uppercasing done by `secret.to_uppercase()` in `totp` (src/main.rs
line 64): Rust `str::to_uppercase`, the full Unicode uppercase mapping of
one code point (possibly to several code points).  The mapping is
reproduced exactly for every code point whose uppercase contains a
character of the Base32 alphabet A-Z, 2-7 — ASCII a-z, dotless i U+0131,
long s U+017F, sharp s U+00DF, U+0149, U+01F0, U+1E96-U+1E9A and the
ligatures U+FB00-U+FB06; no character case-maps to a digit.  Every other
code point is kept unchanged: its true uppercase consists of characters
that are likewise outside the alphabet, so the Base32 decoder rejects the
string either way and the result of `totp` is unaffected. -/
def rustToUpper (c : Nat) : List Nat :=
  if 97 ≤ c ∧ c ≤ 122 then [c - 32]
  else if c = 305 then [73]
  else if c = 383 then [83]
  else if c = 223 then [83, 83]
  else if c = 329 then [700, 78]
  else if c = 496 then [74, 780]
  else if c = 7830 then [72, 817]
  else if c = 7831 then [84, 776]
  else if c = 7832 then [87, 778]
  else if c = 7833 then [89, 778]
  else if c = 7834 then [65, 702]
  else if c = 64256 then [70, 70]
  else if c = 64257 then [70, 73]
  else if c = 64258 then [70, 76]
  else if c = 64259 then [70, 70, 73]
  else if c = 64260 then [70, 70, 76]
  else if c = 64261 then [83, 84]
  else if c = 64262 then [83, 84]
  else [c]

/-- Modelled from the spec (section 4.1): the value of one Base32 character of
the RFC 4648 alphabet, A-Z mapping to 0-25 and the digits 2-7 mapping to
26-31; any other character (including the padding character =) is rejected.
The crate `base32` that implements this for `totp` is not part of the
repository. -/
def b32Val (c : Nat) : Option Nat :=
  if 65 ≤ c ∧ c ≤ 90 then some (c - 65)
  else if 50 ≤ c ∧ c ≤ 55 then some (c - 50 + 26)
  else none

/-- The 5 bits of a Base32 symbol value, most significant first. -/
def toBits5 (n : Nat) : List Bool :=
  [n.testBit 4, n.testBit 3, n.testBit 2, n.testBit 1, n.testBit 0]

/-- Pack a bit stream into bytes, most significant bit first, discarding the
trailing bits that do not complete a byte. -/
def packBytes : List Bool → List Nat
  | b0 :: b1 :: b2 :: b3 :: b4 :: b5 :: b6 :: b7 :: rest =>
      ((if b0 then 128 else 0) + (if b1 then 64 else 0) + (if b2 then 32 else 0) +
       (if b3 then 16 else 0) + (if b4 then 8 else 0) + (if b5 then 4 else 0) +
       (if b6 then 2 else 0) + (if b7 then 1 else 0)) :: packBytes rest
  | _ => []

/-- Map a fallible byte translation over a list, failing if any element
fails. -/
def mapOpt (f : Nat → Option Nat) : List Nat → Option (List Nat)
  | [] => some []
  | a :: l =>
      match f a, mapOpt f l with
      | some b, some bs => some (b :: bs)
      | _, _ => none

/-- Modelled from the spec (section 4.1): RFC 4648 unpadded Base32 decoding.
The input is first normalized to uppercase, each character is mapped through
the 32-symbol alphabet (failing on any character outside it), the 5-bit
groups are concatenated and whole bytes are emitted, discarding trailing
bits. -/
def base32Decode (s : List Nat) : Option (List Nat) :=
  match mapOpt (fun c => b32Val (asciiToUpper c)) s with
  | none => none
  | some vals => some (packBytes (vals.flatMap toBits5))

/-- Rotate a 32-bit word left by `b` bits. -/
def rotl (b n : Nat) : Nat :=
  w32 ((n <<< b) ||| (n >>> (32 - b)))

/-- Split a byte list into 4-byte big-endian 32-bit words. -/
def bytesToWords : List Nat → List Nat
  | a :: b :: c :: d :: rest => (a * 16777216 + b * 65536 + c * 256 + d) :: bytesToWords rest
  | _ => []

/-- Big-endian bytes of a 32-bit word. -/
def wordToBytes (n : Nat) : List Nat :=
  [n / 16777216 % 256, n / 65536 % 256, n / 256 % 256, n % 256]

/-- SHA-1 padding: append the byte 0x80, then zero bytes until the length is
56 mod 64, then the bit length of the message as an 8-byte big-endian
integer. -/
def sha1Pad (msg : List Nat) : List Nat :=
  let l := msg.length
  msg ++ [128] ++ List.replicate ((64 - (l + 9) % 64) % 64) 0 ++
    [wByte (l * 8 / 72057594037927936), wByte (l * 8 / 281474976710656),
     wByte (l * 8 / 1099511627776), wByte (l * 8 / 4294967296),
     wByte (l * 8 / 16777216), wByte (l * 8 / 65536),
     wByte (l * 8 / 256), wByte (l * 8)]

/-- One step of the SHA-1 message schedule over a window of the 16 most
recent words, most recent first: rotl1 of W[t-3] xor W[t-8] xor W[t-14] xor
W[t-16]. -/
def sha1WindowStep (win : List Nat) : Nat :=
  rotl 1 ((win.getD 2 0) ^^^ (win.getD 7 0) ^^^ (win.getD 13 0) ^^^ (win.getD 15 0))

/-- The extension words of the SHA-1 message schedule, produced by sliding
the 16-word window `n` times. -/
def sha1ScheduleAux : Nat → List Nat → List Nat
  | 0, _ => []
  | n + 1, win =>
      let w := sha1WindowStep win
      w :: sha1ScheduleAux n (w :: win.take 15)

/-- The SHA-1 message schedule: extend the 16 block words to 80 words. -/
def sha1Schedule (first16 : List Nat) : List Nat :=
  first16 ++ sha1ScheduleAux 64 first16.reverse

/-- The SHA-1 round function and round constant for round `t`. -/
def sha1F (t b c d : Nat) : Nat × Nat :=
  if t < 20 then ((b &&& c) ||| ((4294967295 - b) &&& d), 1518500249)
  else if t < 40 then (b ^^^ c ^^^ d, 1859775393)
  else if t < 60 then ((b &&& c) ||| (b &&& d) ||| (c &&& d), 2400959708)
  else (b ^^^ c ^^^ d, 3395469782)

/-- One SHA-1 compression of a 64-byte block into the running state, folding
the 80 rounds over the message schedule. -/
def sha1Compress (h : Nat × Nat × Nat × Nat × Nat) (block : List Nat) :
    Nat × Nat × Nat × Nat × Nat :=
  let (h0, h1, h2, h3, h4) := h
  let st :=
    (sha1Schedule (bytesToWords block)).foldl
      (fun st wt =>
        let (t, a, b, c, d, e) := st
        let (f, k) := sha1F t b c d
        (t + 1, w32 (rotl 5 a + f + e + k + wt), a, rotl 30 b, c, d))
      (0, h0, h1, h2, h3, h4)
  (w32 (h0 + st.2.1), w32 (h1 + st.2.2.1), w32 (h2 + st.2.2.2.1),
   w32 (h3 + st.2.2.2.2.1), w32 (h4 + st.2.2.2.2.2))

/-- Split a byte list into 64-byte blocks, accumulating the current partial
block in reverse. -/
def toBlocksAux : List Nat → List Nat → List (List Nat)
  | cur, [] => if cur.isEmpty then [] else [cur.reverse]
  | cur, a :: rest =>
      if cur.length = 63 then (a :: cur).reverse :: toBlocksAux [] rest
      else toBlocksAux (a :: cur) rest

/-- Split a byte list into 64-byte blocks. -/
def toBlocks (l : List Nat) : List (List Nat) := toBlocksAux [] l

/-- Modelled from the spec (section 4.2 steps 3-4): the SHA-1 digest (20
bytes) of a byte sequence.  The crates `sha1`/`hmac` used by `totp` are not
part of the repository. -/
def sha1 (msg : List Nat) : List Nat :=
  let h :=
    (toBlocks (sha1Pad msg)).foldl sha1Compress
      (1732584193, 4023233417, 2562383102, 271733878, 3285377520)
  wordToBytes h.1 ++ wordToBytes h.2.1 ++ wordToBytes h.2.2.1 ++
    wordToBytes h.2.2.2.1 ++ wordToBytes h.2.2.2.2

/-- Modelled from the spec (section 4.2 step 3): HMAC-SHA1.  The key is
hashed if longer than the 64-byte block, zero-padded to 64 bytes, and the
digest is sha1(opad-key ++ sha1(ipad-key ++ message)). -/
def hmacSha1 (key msg : List Nat) : List Nat :=
  let k := if 64 < key.length then sha1 key else key
  let k0 := k ++ List.replicate (64 - k.length) 0
  sha1 ((k0.map (fun b => b ^^^ 92)) ++ sha1 ((k0.map (fun b => b ^^^ 54)) ++ msg))

/-- The 8 big-endian bytes of a `u64`, as produced by `to_be_bytes` in
`totp`. -/
def u64beBytes (n : Nat) : List Nat :=
  [n / 72057594037927936 % 256, n / 281474976710656 % 256,
   n / 1099511627776 % 256, n / 4294967296 % 256,
   n / 16777216 % 256, n / 65536 % 256, n / 256 % 256, n % 256]

/-- The HMAC message built by `totp` for an explicitly supplied timestamp
`t`: the big-endian bytes of `seconds_since_epoch / interval`, where
`seconds_since_epoch` is the explicit value itself — src/main.rs lines 69-76
subtract the epoch only on the wall-clock default path, so `epoch` is unused
here.  Division by zero is a Rust panic and is guarded by the caller
`totp`. -/
def totpMessage (epoch interval t : Nat) : List Nat :=
  u64beBytes (t / interval)

/-- The dynamic-truncation offset: the low 4 bits of the last digest byte
(src/main.rs line 79). -/
def dtOffset (digest : List Nat) : Nat :=
  digest.getD 19 0 &&& 15

/-- The 4-byte dynamic-truncation window `digest[offset..offset+4]`
(src/main.rs line 81). -/
def dtWindow (digest : List Nat) : List Nat :=
  (digest.drop (dtOffset digest)).take 4

/-- A 4-byte big-endian window read as a 32-bit integer, Rust
`u32::from_be_bytes`. -/
def beWord (bs : List Nat) : Nat :=
  bs.getD 0 0 * 16777216 + bs.getD 1 0 * 65536 + bs.getD 2 0 * 256 + bs.getD 3 0

/-- The outcome of one call to the Rust function `totp`: a returned code, a
returned error string, or a panic (Rust division and remainder by zero panic
in every build profile). -/
inductive TotpResult where
  | ok (code : Nat)
  | err (msg : String)
  | panic (msg : String)
deriving DecidableEq

/-- The function `totp` of src/main.rs (lines 55-84), for a call with an
explicitly supplied timestamp (`optional_seconds_since_epoch = Some t`, the
case every claim below is about): Unicode-uppercase and Base32-decode the
secret, divide the timestamp by the interval, HMAC-SHA1 the 8-byte
big-endian counter, dynamically truncate, mask to 31 bits, and reduce
modulo `10u32.pow(digits)` (32-bit wrap-around semantics for the power; a
zero modulus makes the remainder a Rust panic).  The secret is a Rust
string, embedded as its list of Unicode code points. -/
def totp (secret : List Nat) (digits epoch interval : Nat) (t : Nat) : TotpResult :=
  match base32Decode (secret.flatMap rustToUpper) with
  | none => .err "Invalid base32"
  | some secretBytes =>
    if interval = 0 then .panic "attempt to divide by zero"
    else
      let digest := hmacSha1 secretBytes (totpMessage epoch interval t)
      let v := beWord (dtWindow digest) &&& 2147483647
      let m := w32 (10 ^ digits)
      if m = 0 then .panic "attempt to calculate the remainder with a divisor of zero"
      else .ok (v % m)

/-- The code points of a string (for an ASCII string, its byte values). -/
def ascii (s : String) : List Nat := s.data.map Char.toNat

/-- The RFC 6238 test secret, ASCII "12345678901234567890" Base32-encoded
(src/main.rs line 147). -/
def rfcSecret : List Nat := ascii "GEZDGNBVGY3TQOJQGEZDGNBVGY3TQOJQ"

/- Helper lemmas shared by the claim theorems. -/

theorem rustToUpper_of_upperAlpha (d : Nat) (h : 65 ≤ d ∧ d ≤ 90) :
    rustToUpper d = [d] := by
  obtain ⟨h1, h2⟩ := h
  interval_cases d <;> rfl

theorem rustToUpper_asciiToUpper (c : Nat) :
    rustToUpper (asciiToUpper c) = rustToUpper c := by
  unfold asciiToUpper
  by_cases h : 97 ≤ c ∧ c ≤ 122
  · rw [if_pos h, rustToUpper_of_upperAlpha (c - 32) (by omega)]
    unfold rustToUpper
    rw [if_pos h]
  · rw [if_neg h]

theorem flatMap_rustToUpper_map_asciiToUpper (s : List Nat) :
    (s.map asciiToUpper).flatMap rustToUpper = s.flatMap rustToUpper := by
  induction s with
  | nil => rfl
  | cons a l ih =>
      simp only [List.map_cons, List.flatMap_cons, rustToUpper_asciiToUpper, ih]

theorem mapOpt_eq_none (f : Nat → Option Nat) (s : List Nat)
    (h : ∃ c ∈ s, f c = none) : mapOpt f s = none := by
  induction s with
  | nil => obtain ⟨c, hc, _⟩ := h; cases hc
  | cons a l ih =>
      obtain ⟨c, hc, hfc⟩ := h
      unfold mapOpt
      rcases List.mem_cons.mp hc with hca | hcl
      · rw [hca] at hfc; rw [hfc]
      · cases hfa : f a with
        | none => rfl
        | some b => rw [ih ⟨c, hcl, hfc⟩]

theorem base32Decode_eq_none (s : List Nat)
    (h : ∃ c ∈ s, b32Val (asciiToUpper c) = none) : base32Decode s = none := by
  unfold base32Decode
  rw [mapOpt_eq_none _ _ h]

theorem totp_of_decode_none (secret : List Nat) (digits epoch interval t : Nat)
    (h : base32Decode (secret.flatMap rustToUpper) = none) :
    totp secret digits epoch interval t = .err "Invalid base32" := by
  unfold totp
  rw [h]

theorem totp_of_decode_some (secret : List Nat) (digits epoch interval t : Nat)
    (b : List Nat) (h : base32Decode (secret.flatMap rustToUpper) = some b) :
    totp secret digits epoch interval t =
      if interval = 0 then .panic "attempt to divide by zero"
      else if w32 (10 ^ digits) = 0 then
        .panic "attempt to calculate the remainder with a divisor of zero"
      else
        .ok ((beWord (dtWindow (hmacSha1 b (totpMessage epoch interval t))) &&&
          2147483647) % w32 (10 ^ digits)) := by
  unfold totp
  rw [h]

theorem sha1_length (msg : List Nat) : (sha1 msg).length = 20 := by
  unfold sha1
  simp [wordToBytes]

theorem hmacSha1_length (key msg : List Nat) : (hmacSha1 key msg).length = 20 := by
  unfold hmacSha1
  exact sha1_length _

/- The claims. -/

set_option maxRecDepth 4000000 in
set_option maxHeartbeats 4000000 in
/-- C1: for the secret whose Base32 encoding is
"GEZDGNBVGY3TQOJQGEZDGNBVGY3TQOJQ", with digits = 8, epoch = 0,
interval = 30, and explicit timestamps 59, 1111111109, 1111111111,
1234567890, 2000000000, 20000000000, the totp function returns Ok with the
RFC 6238 SHA-1 test-vector codes 94287082, 7081804, 14050471, 89005924,
69279037, 65353130 respectively. -/
theorem totp_rfc6238_sha1_vectors :
    totp rfcSecret 8 0 30 59 = .ok 94287082 ∧
    totp rfcSecret 8 0 30 1111111109 = .ok 7081804 ∧
    totp rfcSecret 8 0 30 1111111111 = .ok 14050471 ∧
    totp rfcSecret 8 0 30 1234567890 = .ok 89005924 ∧
    totp rfcSecret 8 0 30 2000000000 = .ok 69279037 ∧
    totp rfcSecret 8 0 30 20000000000 = .ok 65353130 :=
  ⟨by decide, by decide, by decide, by decide, by decide, by decide⟩

/-- C2 counterexample: at epoch 30, interval 30, explicit timestamp 30 (so
timestamp ≥ epoch and the interval is positive), the HMAC message built by
totp does not encode floor((t − epoch) / interval) = 0: the code divides the
explicit timestamp by the interval without subtracting the epoch, giving
counter 1. -/
theorem totp_epoch_subtraction_cex :
    (30 : Nat) ≥ 30 ∧ 0 < 30 ∧
    totpMessage 30 30 30 ≠ u64beBytes ((30 - 30) / 30) := by
  refine ⟨by decide, by decide, by decide⟩

/-- C2 amended: for every call to totp with an explicit timestamp t and
interval i, the 8-byte big-endian HMAC message encodes floor(t / i) — the
epoch is NOT subtracted from an explicitly supplied timestamp (src/main.rs
subtracts it only from the wall-clock reading on the default path), and
consequently the totp result is independent of the epoch argument. -/
theorem totp_explicit_timestamp_counter :
    (∀ epoch interval t, totpMessage epoch interval t = u64beBytes (t / interval)) ∧
    (∀ s d e1 e2 i t, totp s d e1 i t = totp s d e2 i t) := by
  refine ⟨fun _ _ _ => rfl, fun s d e1 e2 i t => ?_⟩
  unfold totp
  simp only [totpMessage]

/-- C3 counterexample: with a valid Base32 secret, digits 6, epoch 0, and
explicit timestamp 1234567890, calling totp with interval = 0 panics with a
division by zero; it does not return a typed InvalidInterval error (no such
error exists in src/main.rs). -/
theorem totp_zero_interval_cex :
    totp rfcSecret 6 0 0 1234567890 = .panic "attempt to divide by zero" := by
  decide

/-- C3 amended: for every secret that decodes as valid Base32, every digits,
epoch, and explicit timestamp, calling totp with interval = 0 panics with a
division by zero (`seconds_since_epoch / interval` in src/main.rs line 76 is
unguarded) instead of returning a typed InvalidInterval error. -/
theorem totp_zero_interval_panics (s : List Nat) (d e t : Nat)
    (hs : (base32Decode (s.flatMap rustToUpper)).isSome) :
    totp s d e 0 t = .panic "attempt to divide by zero" := by
  obtain ⟨b, hb⟩ := Option.isSome_iff_exists.mp hs
  rw [totp_of_decode_some s d e 0 t b hb, if_pos rfl]

/-- C3 witness: the amended statement at the RFC 6238 secret, digits 8,
epoch 0, timestamp 59. -/
theorem totp_zero_interval_panics_w :
    (base32Decode (rfcSecret.flatMap rustToUpper)).isSome = true ∧
    totp rfcSecret 8 0 0 59 = .panic "attempt to divide by zero" :=
  ⟨by decide, totp_zero_interval_panics rfcSecret 8 0 59 (by decide)⟩

/-- C4 counterexample: at digits = 32 (with a valid secret, epoch 0,
interval 30, timestamp 59) the computation does not succeed: `10u32.pow(32)`
wraps to 0 (and already panics under debug overflow checks from digits = 10),
so the final remainder panics with a zero divisor instead of returning a
code. -/
theorem totp_digits32_panic_cex :
    totp rfcSecret 32 0 30 59 =
      .panic "attempt to calculate the remainder with a divisor of zero" := by
  decide

/-- C4 amended: for every valid Base32 secret, epoch, positive interval,
explicit timestamp, and digits < 32 (so that `10u32.pow(digits)` does not
wrap to zero modulo 2^32), totp returns Ok with a code satisfying
0 ≤ code < 10^digits. -/
theorem totp_code_range (s : List Nat) (d e i t : Nat) (hd : d < 32) (hi : 0 < i)
    (hs : (base32Decode (s.flatMap rustToUpper)).isSome) :
    ∃ c, totp s d e i t = .ok c ∧ c < 10 ^ d := by
  obtain ⟨b, hb⟩ := Option.isSome_iff_exists.mp hs
  have hm : w32 (10 ^ d) ≠ 0 := by
    have h32 : ∀ x, x < 32 → w32 (10 ^ x) ≠ 0 := by decide
    exact h32 d hd
  rw [totp_of_decode_some s d e i t b hb, if_neg (by omega), if_neg hm]
  refine ⟨_, rfl, lt_of_lt_of_le (Nat.mod_lt _ (Nat.pos_of_ne_zero hm)) ?_⟩
  unfold w32
  exact Nat.mod_le _ _

/-- C4 witness: the amended statement at secret "JBSWY3DPEHPK3PXP",
digits 6, epoch 0, interval 30, timestamp 1234567890. -/
theorem totp_code_range_w :
    (6 : Nat) < 32 ∧ (0 : Nat) < 30 ∧
    ∃ c, totp (ascii "JBSWY3DPEHPK3PXP") 6 0 30 1234567890 = .ok c ∧ c < 10 ^ 6 :=
  ⟨by decide, by decide,
    totp_code_range (ascii "JBSWY3DPEHPK3PXP") 6 0 30 1234567890
      (by decide) (by decide) (by decide)⟩

set_option maxRecDepth 4000000 in
set_option maxHeartbeats 4000000 in
/-- C5 counterexample: with the RFC 6238 secret, digits 8, epoch 1,
interval 30, the timestamps 1 and 30 satisfy
floor((t1 − epoch)/interval) = floor((t2 − epoch)/interval) = 0, yet totp
returns different codes, because the code divides the explicit timestamp by
the interval without subtracting the epoch (counters 0 and 1). -/
theorem totp_window_stability_cex :
    ((1 : Nat) - 1) / 30 = ((30 : Nat) - 1) / 30 ∧
    totp rfcSecret 8 1 30 1 ≠ totp rfcSecret 8 1 30 30 :=
  ⟨by decide, by decide⟩

/-- C5 amended: for every secret, digits, epoch, interval, and any two
explicit timestamps t1, t2 with floor(t1/interval) = floor(t2/interval) (the
window computed by the code, which does not subtract the epoch from explicit
timestamps), totp returns equal results. -/
theorem totp_window_stability (s : List Nat) (d e i t1 t2 : Nat)
    (h : t1 / i = t2 / i) :
    totp s d e i t1 = totp s d e i t2 := by
  have hm : totpMessage e i t1 = totpMessage e i t2 := by
    unfold totpMessage
    rw [h]
  unfold totp
  simp only [hm]

/-- C5 witness: the amended statement at the RFC 6238 secret, digits 8,
epoch 0, interval 30, timestamps 30 and 45 (both in window 1). -/
theorem totp_window_stability_w :
    (30 : Nat) / 30 = (45 : Nat) / 30 ∧
    totp rfcSecret 8 0 30 30 = totp rfcSecret 8 0 30 45 :=
  ⟨by decide, totp_window_stability rfcSecret 8 0 30 30 45 (by decide)⟩

/-- C6: for every secret byte string s and identical digits, epoch, interval,
and explicit timestamp, totp applied to s and totp applied to the uppercase
form of s return the same result; in particular totp("JBSWY3DPEHPK3PXP", ...)
equals totp("jbswy3dpehpk3pxp", ...) with digits 6, epoch 0, interval 30,
timestamp 1234567890. -/
theorem totp_case_insensitive :
    (∀ s d e i t, totp s d e i t = totp (s.map asciiToUpper) d e i t) ∧
    totp (ascii "JBSWY3DPEHPK3PXP") 6 0 30 1234567890 =
      totp (ascii "jbswy3dpehpk3pxp") 6 0 30 1234567890 := by
  have huniv : ∀ s d e i t, totp s d e i t = totp (s.map asciiToUpper) d e i t := by
    intro s d e i t
    unfold totp
    rw [flatMap_rustToUpper_map_asciiToUpper]
  refine ⟨huniv, ?_⟩
  have h2 := huniv (ascii "jbswy3dpehpk3pxp") 6 0 30 1234567890
  rw [show (ascii "jbswy3dpehpk3pxp").map asciiToUpper = ascii "JBSWY3DPEHPK3PXP" from
    by decide] at h2
  exact h2.symm

set_option maxRecDepth 4000000 in
set_option maxHeartbeats 4000000 in
/-- C7 counterexample: the secret "ı" (the single code point U+0131,
dotless i) consists of a character outside the RFC 4648 Base32 alphabet
even case-insensitively, yet totp does not return the invalid-Base32 error:
`secret.to_uppercase()` maps ı to I by the Unicode uppercase table, "I"
decodes as valid Base32 (to the empty key, which HMAC accepts), and totp
returns a code. -/
theorem totp_invalid_base32_cex :
    ascii "ı" = [305] ∧ b32Val (asciiToUpper 305) = none ∧
    totp (ascii "ı") 6 0 30 1234567890 = .ok 712049 :=
  ⟨by decide, by decide, by decide⟩

/-- C7 amended: totp returns the invalid-Base32 error, for every digits,
epoch, interval, and explicit timestamp, for every secret whose Unicode
UPPERCASED form contains a character outside the RFC 4648 Base32 alphabet
(A-Z, 2-7, case-insensitive) — so in particular for "INVALID!@#$" and for
any secret containing the padding character =; but a raw character outside
the alphabet does not suffice, since ı (U+0131), ſ (U+017F), ß and the
Latin ligatures uppercase into the alphabet and are accepted. -/
theorem totp_invalid_base32 (s : List Nat) (d e i t : Nat)
    (h : ∃ c ∈ s.flatMap rustToUpper, b32Val (asciiToUpper c) = none) :
    totp s d e i t = .err "Invalid base32" := by
  apply totp_of_decode_none
  exact base32Decode_eq_none _ h

/-- C7 witness: totp("INVALID!@#$") fails with the invalid-Base32 error at
digits 6, epoch 0, interval 30, timestamp 1234567890 (the character ! is
outside the alphabet and uppercases to itself). -/
theorem totp_invalid_base32_w :
    (∃ c ∈ (ascii "INVALID!@#$").flatMap rustToUpper, b32Val (asciiToUpper c) = none) ∧
    totp (ascii "INVALID!@#$") 6 0 30 1234567890 = .err "Invalid base32" :=
  ⟨by decide, totp_invalid_base32 (ascii "INVALID!@#$") 6 0 30 1234567890 (by decide)⟩

/-- C8: every HMAC-SHA1 digest has 20 bytes, and for every 20-byte digest
the dynamic-truncation offset (low 4 bits of the last byte) lies in 0-15, so
the 4-byte window digest[offset..offset+4] is always fully inside the digest
and the slice extraction in totp always yields exactly 4 bytes. -/
theorem totp_truncation_window_safe (key msg digest : List Nat)
    (h : digest.length = 20) :
    (hmacSha1 key msg).length = 20 ∧
    dtOffset digest ≤ 15 ∧ dtOffset digest + 4 ≤ 20 ∧ (dtWindow digest).length = 4 := by
  have h15 : dtOffset digest ≤ 15 := Nat.and_le_right
  refine ⟨hmacSha1_length key msg, h15, by omega, ?_⟩
  unfold dtWindow
  rw [List.length_take, List.length_drop, h]
  omega

/-- C8 witness: the window-safety statement at the empty key, the empty
message, and the all-zero 20-byte digest. -/
theorem totp_truncation_window_safe_w :
    (List.replicate 20 0).length = 20 ∧
    ((hmacSha1 [] []).length = 20 ∧
      dtOffset (List.replicate 20 0) ≤ 15 ∧
      dtOffset (List.replicate 20 0) + 4 ≤ 20 ∧
      (dtWindow (List.replicate 20 0)).length = 4) :=
  ⟨by decide, totp_truncation_window_safe [] [] (List.replicate 20 0) (by decide)⟩

/-- C9: totp is deterministic — any two calls at the same tuple (secret,
digits, epoch, interval, explicit timestamp) return the same result. -/
theorem totp_deterministic (s : List Nat) (d e i t : Nat) (r1 r2 : TotpResult)
    (h1 : r1 = totp s d e i t) (h2 : r2 = totp s d e i t) : r1 = r2 :=
  h1.trans h2.symm

/-- C9 witness: two calls at the RFC 6238 secret, digits 8, epoch 0,
interval 30, timestamp 59 agree. -/
theorem totp_deterministic_w :
    totp rfcSecret 8 0 30 59 = totp rfcSecret 8 0 30 59 ∧
    totp rfcSecret 8 0 30 59 = totp rfcSecret 8 0 30 59 :=
  ⟨rfl, totp_deterministic rfcSecret 8 0 30 59 _ _ rfl rfl⟩

/-- C10: for every secret that decodes as valid Base32, every epoch,
positive interval, and explicit timestamp, calling totp with digits = 0
returns Ok(0): the masked 31-bit value is reduced modulo 10^0 = 1. -/
theorem totp_zero_digits (s : List Nat) (e i t : Nat) (hi : 0 < i)
    (hs : (base32Decode (s.flatMap rustToUpper)).isSome) :
    totp s 0 e i t = .ok 0 := by
  obtain ⟨b, hb⟩ := Option.isSome_iff_exists.mp hs
  rw [totp_of_decode_some s 0 e i t b hb, if_neg (by omega)]
  norm_num [w32, Nat.mod_one]

/-- C10 witness: the statement at secret "JBSWY3DPEHPK3PXP", epoch 0,
interval 30, timestamp 1234567890. -/
theorem totp_zero_digits_w :
    (0 : Nat) < 30 ∧ totp (ascii "JBSWY3DPEHPK3PXP") 0 0 30 1234567890 = .ok 0 :=
  ⟨by decide, totp_zero_digits (ascii "JBSWY3DPEHPK3PXP") 0 30 1234567890
    (by decide) (by decide)⟩
